import Mathlib

/-!
Verification of the geostradamus weighting-and-smoothing pipeline.

Shallow embedding of the repository's source files:
  * `src/utils.py`        → `haversine`
  * `src/kernel.py`       → `gaussianKernel`, `exponentialKernel`
  * `src/smoother.py`     → `weighted_mean_smoother`
  * `src/data_models.py`  → `ProphetSettings`, `prophetSettingsOfDict`, `activeModels`
  * `src/time_series.py`  → `run_prophet` (post-backend part), `leftJoinDates`
  * `src/geostradamus.py` → `Geo`, `fit`, `fitStages`, stage functions

Floating-point values are embedded as real numbers; the only source of IEEE
non-finite values reachable in this code (division by a zero weight sum) is
tracked explicitly by `FloatResult`.  Timestamps are embedded as integers
(calendar dates after the `dt.date()` normalization in `run_prophet`).
The Prophet forecasting library itself is an external collaborator: its
output is passed to the embedded `run_prophet` as an explicit predictions
table (column names plus (ds, yhat) rows).
-/

/-- Result of a Polars float division `num / den` with finite operands:
`finite (num / den)` when the denominator is nonzero, `nonFinite`
(IEEE NaN or ±Inf — Polars raises no error, it propagates the value)
when the denominator is zero. -/
inductive FloatResult where
  | finite (x : ℝ)
  | nonFinite

/-- Stand-in real value read back from a `FloatResult`; the `nonFinite`
branch is junk (the claims that reach it inspect the `FloatResult` itself). -/
noncomputable def FloatResult.toReal : FloatResult → ℝ
  | .finite x => x
  | .nonFinite => 0

open Classical in
/-- Polars float division with the zero-denominator case made explicit. -/
noncomputable def fdiv (num den : ℝ) : FloatResult :=
  if den = 0 then .nonFinite else .finite (num / den)

/-- Dot product of two equal-length series, `weights.dot(values)` in Polars. -/
noncomputable def listDot (a b : List ℝ) : ℝ :=
  (List.zipWith (fun x y => x * y) a b).sum

/-- Embedding of `smoother.weighted_mean_smoother`:
`weights.dot(values).truediv(weights.sum())`. -/
noncomputable def weighted_mean_smoother (values weights : List ℝ) : FloatResult :=
  fdiv (listDot weights values) weights.sum

/-- Embedding of `utils.haversine` (`np.radians`): degrees to radians. -/
noncomputable def radians (d : ℝ) : ℝ := d * (Real.pi / 180)

/-- Embedding of `utils.haversine`: great-circle distance on a sphere of
radius 6371 km, `a = sin²(Δlat/2) + cos lat1 · cos lat2 · sin²(Δlon/2)`,
`c = 2·arcsin(√a)`, `distance = R·c`. -/
noncomputable def haversine (olat olng dlat dlng : ℝ) : ℝ :=
  let R : ℝ := 6371
  let lat1 := radians olat
  let lon1 := radians olng
  let lat2 := radians dlat
  let lon2 := radians dlng
  let dlat2 := lat2 - lat1
  let dlon2 := lon2 - lon1
  let a := Real.sin (dlat2 / 2) ^ 2 +
    Real.cos lat1 * Real.cos lat2 * Real.sin (dlon2 / 2) ^ 2
  let c := 2 * Real.arcsin (Real.sqrt a)
  R * c

/-- Embedding of `kernel.GaussianKernel.__call__`:
`z = (x - 0) ** 2 / 2 / length_scale ** 2; exp(-z)`. -/
noncomputable def gaussianKernel (length_scale x : ℝ) : ℝ :=
  Real.exp (-((x - 0) ^ 2 / 2 / length_scale ^ 2))

/-- Embedding of `kernel.ExponentialKernel.__call__`:
`z = abs(x - 0) / length_scale; exp(-z)`. -/
noncomputable def exponentialKernel (length_scale x : ℝ) : ℝ :=
  Real.exp (-(|x - 0| / length_scale))

/-- Values appearing in a `model_settings` dictionary. -/
inductive SettingVal where
  | num (q : ℚ)
  | str (s : String)
  | bool (b : Bool)
  | nat (n : ℕ)
  deriving DecidableEq

/-- Embedding of `data_models.ProphetSettings` with its field defaults. -/
structure ProphetSettings where
  changepoint_prior_scale : ℚ := 1 / 20
  seasonality_mode : String := "additive"
  yearly_seasonality : Bool := false
  weekly_seasonality : Bool := false
  daily_seasonality : Bool := false
  interval_width : ℚ := 19 / 20
  uncertainty_samples : ℕ := 0
  mcmc_samples : ℕ := 0
  seasonality_prior_scale : ℚ := 10
  holidays_prior_scale : ℚ := 10
  changepoint_range : ℚ := 4 / 5
  growth : String := "linear"
  deriving DecidableEq

/-- One keyword argument of `ProphetSettings(**model_settings)`: a recognized
key sets its field; anything else is silently dropped, which is pydantic
`BaseModel`'s default `extra` behavior (the class declares no
`extra="forbid"`). -/
def applySetting (s : ProphetSettings) (kv : String × SettingVal) : ProphetSettings :=
  match kv with
  | ("changepoint_prior_scale", SettingVal.num q) => { s with changepoint_prior_scale := q }
  | ("seasonality_mode", SettingVal.str v) => { s with seasonality_mode := v }
  | ("yearly_seasonality", SettingVal.bool b) => { s with yearly_seasonality := b }
  | ("weekly_seasonality", SettingVal.bool b) => { s with weekly_seasonality := b }
  | ("daily_seasonality", SettingVal.bool b) => { s with daily_seasonality := b }
  | ("interval_width", SettingVal.num q) => { s with interval_width := q }
  | ("uncertainty_samples", SettingVal.nat n) => { s with uncertainty_samples := n }
  | ("mcmc_samples", SettingVal.nat n) => { s with mcmc_samples := n }
  | ("seasonality_prior_scale", SettingVal.num q) => { s with seasonality_prior_scale := q }
  | ("holidays_prior_scale", SettingVal.num q) => { s with holidays_prior_scale := q }
  | ("changepoint_range", SettingVal.num q) => { s with changepoint_range := q }
  | ("growth", SettingVal.str v) => { s with growth := v }
  | _ => s

/-- Embedding of `ProphetSettings(**model_settings_dict)` in
`time_series.run_prophet`: fold the keyword arguments over the defaults. -/
def prophetSettingsOfDict (d : List (String × SettingVal)) : ProphetSettings :=
  d.foldl applySetting {}

/-- Embedding of `data_models.ActiveModels.__members__`: the single member
name `"prophet"`. -/
def activeModels : List String := ["prophet"]

/-- Errors raised by the pipeline. -/
inductive FitError where
  | invalidModel (model : String) (allowed : List String)
  | columnNotFound (col : String)
  | missingPredictionColumn (col : String)
  deriving DecidableEq

/-- The working table held by the orchestrator: the input columns of
`TimeSeriesSchema` plus the optional derived `distance` and `weights`
columns (absent until a stage adds them; reading an absent column is a
Polars `ColumnNotFoundError`). -/
structure Table where
  date : List ℤ
  y : List ℝ
  lat : List ℝ
  lng : List ℝ
  distance : Option (List ℝ)
  weights : Option (List ℝ)

/-- Embedding of `Geostradamus`: the held working table and the pluggable
kernel (the smoother is the default `weighted_mean_smoother`). -/
structure Geo where
  data : Table
  kernel : ℝ → ℝ

/-- Embedding of `Geostradamus.get_haversine_distance`:
`with_columns(haversine(lat, lng, col("lat"), col("lng")).alias("distance"))`. -/
noncomputable def get_haversine_distance (t : Table) (lat lng : ℝ) : Table :=
  { t with
    distance := some ((t.lat.zip t.lng).map (fun p => haversine lat lng p.1 p.2)) }

/-- Embedding of `Geostradamus.get_weights`:
`with_columns(kernel(col("distance")).alias("weights"))`; reading the
`distance` column fails when it was never added. -/
noncomputable def get_weights (t : Table) (kernel : ℝ → ℝ) : Except FitError Table :=
  match t.distance with
  | none => .error (.columnNotFound "distance")
  | some d => .ok { t with weights := some (d.map kernel) }

/-- Embedding of `Geostradamus.smooth_series` with the default smoother:
`with_columns(weighted_mean_smoother(col("y"), col("weights")).alias("y"))`.
The smoother's aggregate scalar is broadcast by `with_columns` to every row
of the `y` column; reading the `weights` column fails when it was never
added. -/
noncomputable def smooth_series (t : Table) : Except FitError Table :=
  match t.weights with
  | none => .error (.columnNotFound "weights")
  | some w =>
      .ok { t with
        y := List.replicate t.y.length (weighted_mean_smoother t.y w).toReal }

/-- The table produced by stages 2–4 of a successful default `fit` call
(distance column from `haversine`, weights from the kernel, `y` overwritten
by the broadcast weighted mean). -/
noncomputable def stagesTable (t : Table) (kernel : ℝ → ℝ) (lat lng : ℝ) : Table :=
  let d := (t.lat.zip t.lng).map (fun p => haversine lat lng p.1 p.2)
  let w := d.map kernel
  { t with distance := some d, weights := some w,
           y := List.replicate t.y.length (weighted_mean_smoother t.y w).toReal }

/-- Embedding of the validation and stages 2–4 of `Geostradamus.fit`.
Returns the orchestrator state as mutated so far (each stage reassigns
`self.data`) together with the raised error, if any.  Note that the
`distance` and `weights` arguments are consulted only through their
`is None` test, exactly as in the source. -/
noncomputable def fitStages (g : Geo) (lat lng : ℝ) (model : String)
    (distArg weightsArg : Option (List ℝ)) : Geo × Option FitError :=
  if activeModels.contains model then
    let g1 := if distArg.isNone then
        { g with data := get_haversine_distance g.data lat lng }
      else g
    match (if weightsArg.isNone then get_weights g1.data g1.kernel else .ok g1.data) with
    | .error e => (g1, some e)
    | .ok t2 =>
        let g2 := { g1 with data := t2 }
        match smooth_series g2.data with
        | .error e => (g2, some e)
        | .ok t3 => ({ g2 with data := t3 }, none)
  else
    (g, some (.invalidModel model activeModels))

/-- One left-joined output row: the original date and (smoothed) value,
plus the matched prediction value, null when no forecast row matched. -/
abbrev JoinedRow := ℤ × ℝ × Option ℝ

/-- One original row's contribution to a Polars left join on the date key:
all matching prediction rows, or a single null-extended row when none match. -/
noncomputable def joinRow (preds : List (ℤ × ℝ)) (r : ℤ × ℝ) : List JoinedRow :=
  match preds.filter (fun p => p.1 == r.1) with
  | [] => [(r.1, r.2, none)]
  | ms => ms.map (fun p => (r.1, r.2, some p.2))

/-- Embedding of `data.join(predictions, left_on="date", right_on="ds",
how="left")` in `time_series.run_prophet`, keyed on the normalized date. -/
noncomputable def leftJoinDates (orig preds : List (ℤ × ℝ)) : List JoinedRow :=
  orig.flatMap (joinRow preds)

/-- Embedding of the post-backend part of `time_series.run_prophet`: Prophet
itself is the opaque external backend, so its output arrives as the list of
its prediction columns `predCols` and its (ds, yhat) rows `preds`.  The
source builds `return_columns = predictions.columns + other_columns if
other_columns else predictions.columns` (Python truthiness: `None` and `[]`
both fall back), raises `ValueError(f"Column {col} not found in
predictions")` at the first requested column absent from the predictions,
and otherwise left-joins the predictions onto the data by date. -/
noncomputable def run_prophet (data : List (ℤ × ℝ)) (predCols : List String)
    (preds : List (ℤ × ℝ)) (other_columns : Option (List String)) :
    Except FitError (List JoinedRow) :=
  let return_columns :=
    match other_columns with
    | some oc => if oc.isEmpty then predCols else predCols ++ oc
    | none => predCols
  match return_columns.find? (fun c => !(predCols.contains c)) with
  | some c => .error (.missingPredictionColumn c)
  | none => .ok (leftJoinDates data preds)

/-- Embedding of the whole of `Geostradamus.fit`: validation, stages 2–4
(mutating the held table), then dispatch to `run_prophet` for the
`"prophet"` member with a defensive re-check of the model identifier.
The backend's prediction output is an explicit argument (see
`run_prophet`); `model_settings` construction is modeled by
`prophetSettingsOfDict`. -/
noncomputable def fit (g : Geo) (lat lng : ℝ) (model : String)
    (distArg weightsArg : Option (List ℝ)) (other_columns : Option (List String))
    (predCols : List String) (preds : List (ℤ × ℝ)) :
    Geo × Except FitError (List JoinedRow) :=
  match fitStages g lat lng model distArg weightsArg with
  | (g1, some e) => (g1, .error e)
  | (g1, none) =>
      if model = "prophet" then
        (g1, run_prophet (g1.data.date.zip g1.data.y) predCols preds other_columns)
      else
        (g1, .error (.invalidModel model activeModels))

/-- Concrete raw input table with one observation and no derived columns. -/
noncomputable def sampleTable : Table :=
  { date := [0], y := [1], lat := [0], lng := [0], distance := none, weights := none }

/-- The same table with a precomputed `distance` column already present. -/
noncomputable def sampleTableWithDistance : Table :=
  { sampleTable with distance := some [2] }

/-- A constant kernel (a legal pluggable `Kernel`) used for concrete runs. -/
noncomputable def constKernel : ℝ → ℝ := fun _ => 1

/-- Orchestrator instance over the raw sample table. -/
noncomputable def sampleGeo : Geo := { data := sampleTable, kernel := constKernel }

/-- Orchestrator instance whose table already carries a distance column. -/
noncomputable def sampleGeoWithDistance : Geo :=
  { data := sampleTableWithDistance, kernel := constKernel }

/-- Concrete table for the smoothing-stage claims: two rows, weights 1. -/
noncomputable def sampleWeightedTable : Table :=
  { date := [0, 1], y := [1, 3], lat := [0, 0], lng := [0, 0],
    distance := some [0, 0], weights := some [1, 1] }

/-- Boolean success test on `Except`. -/
def exceptIsOk : Except FitError (List JoinedRow) → Bool
  | .ok _ => true
  | .error _ => false

/-- Helper: squared sine is invariant under negating the angle difference. -/
theorem sin_sq_sub_comm (u v : ℝ) :
    Real.sin ((u - v) / 2) ^ 2 = Real.sin ((v - u) / 2) ^ 2 := by
  rw [show u - v = -(v - u) by ring, neg_div, Real.sin_neg, neg_sq]

/-- C8: the haversine distance satisfies distance(a,a) = 0, symmetry, and
nonnegativity (for all real coordinates, hence in particular for latitudes
in [-90, 90] and longitudes in [-180, 180]). -/
theorem haversine_metric_properties (olat olng dlat dlng : ℝ) :
    haversine olat olng olat olng = 0 ∧
    haversine olat olng dlat dlng = haversine dlat dlng olat olng ∧
    0 ≤ haversine olat olng dlat dlng := by
  refine ⟨?_, ?_, ?_⟩
  · simp [haversine, Real.arcsin_zero]
  · simp only [haversine]
    rw [sin_sq_sub_comm (radians dlat) (radians olat),
      sin_sq_sub_comm (radians dlng) (radians olng),
      mul_comm (Real.cos (radians olat)) (Real.cos (radians dlat))]
  · simp only [haversine]
    have h := (Real.arcsin_nonneg).2 (Real.sqrt_nonneg
      (Real.sin ((radians dlat - radians olat) / 2) ^ 2 +
        Real.cos (radians olat) * Real.cos (radians dlat) *
          Real.sin ((radians dlng - radians olng) / 2) ^ 2))
    nlinarith

/-- C7: for any positive length scale, the Gaussian and Exponential kernels
send distance 0 to weight 1, are monotonically non-increasing in the
absolute distance, and take values in (0, 1]. -/
theorem kernel_weight_properties (ls : ℝ) (hls : 0 < ls) :
    gaussianKernel ls 0 = 1 ∧ exponentialKernel ls 0 = 1 ∧
    (∀ x1 x2 : ℝ, |x1| ≤ |x2| →
      gaussianKernel ls x2 ≤ gaussianKernel ls x1 ∧
      exponentialKernel ls x2 ≤ exponentialKernel ls x1) ∧
    (∀ x : ℝ, (0 < gaussianKernel ls x ∧ gaussianKernel ls x ≤ 1) ∧
      (0 < exponentialKernel ls x ∧ exponentialKernel ls x ≤ 1)) := by
  have hls2 : 0 < ls ^ 2 := by positivity
  refine ⟨?_, ?_, ?_, ?_⟩
  · simp [gaussianKernel]
  · simp [exponentialKernel]
  · intro x1 x2 h
    have hsq : x1 ^ 2 ≤ x2 ^ 2 := by
      rw [← sq_abs x1, ← sq_abs x2]
      exact pow_le_pow_left₀ (abs_nonneg _) h 2
    constructor
    · apply Real.exp_le_exp.2
      rw [neg_le_neg_iff]
      rw [sub_zero, sub_zero]
      rw [div_div, div_div]
      exact div_le_div_of_nonneg_right hsq (by positivity) |>.trans_eq rfl
    · apply Real.exp_le_exp.2
      rw [neg_le_neg_iff, sub_zero, sub_zero]
      exact div_le_div_of_nonneg_right h hls.le |>.trans_eq rfl
  · intro x
    refine ⟨⟨Real.exp_pos _, ?_⟩, Real.exp_pos _, ?_⟩
    · rw [gaussianKernel, Real.exp_le_one_iff, neg_nonpos]
      positivity
    · rw [exponentialKernel, Real.exp_le_one_iff, neg_nonpos]
      positivity

/-- C1: on all-zero weights the default weighted-mean smoother evaluates to
the IEEE non-finite result of a zero-denominator division; it raises no
degenerate-state error. -/
theorem weighted_mean_smoother_zero_weights_nonfinite :
    weighted_mean_smoother [(1 : ℝ), 2] [0, 0] = FloatResult.nonFinite := by
  norm_num [weighted_mean_smoother, fdiv, listDot]

/-- C3: constructing the Prophet settings from a dictionary holding an
unrecognized option silently yields the default settings (pydantic default
extra-key behavior); no fail-fast error is raised. -/
theorem prophet_settings_unknown_key_ignored :
    prophetSettingsOfDict [("not_a_real_option", SettingVal.num 1)] =
      ({} : ProphetSettings) := rfl

/-- Helper: stages 2-4 of a default `fit` call (no precomputed columns)
always succeed on a valid model and store the staged table in the state. -/
theorem fitStages_default_eq (g : Geo) (lat lng : ℝ) (model : String)
    (h : model ∈ activeModels) :
    fitStages g lat lng model none none =
      ({ g with data := stagesTable g.data g.kernel lat lng }, none) := by
  simp [fitStages, h, get_haversine_distance, get_weights, smooth_series, stagesTable]

/-- C5: an unsupported model identifier makes `fit` return the invalid-model
error carrying both the identifier and the allowed set, with the held state
untouched (no pipeline stage has run). -/
theorem fit_invalid_model_error (g : Geo) (lat lng : ℝ) (model : String)
    (distArg weightsArg : Option (List ℝ)) (oc : Option (List String))
    (predCols : List String) (preds : List (ℤ × ℝ))
    (h : model ∉ activeModels) :
    fit g lat lng model distArg weightsArg oc predCols preds =
      (g, Except.error (FitError.invalidModel model activeModels)) := by
  simp [fit, fitStages, h]

/-- Witness for C5 at the spec's own example `model="arima"`. -/
theorem fit_invalid_model_error_witness :
    "arima" ∉ activeModels ∧
    fit sampleGeo 40 (-73) "arima" none none none [] [] =
      (sampleGeo, Except.error (FitError.invalidModel "arima" activeModels)) :=
  ⟨by decide, fit_invalid_model_error sampleGeo 40 (-73) "arima" none none none [] []
    (by decide)⟩

/-- C6: a default `fit` call replaces the held table with the staged
(distance- and weight-augmented, smoothed) table, so a second `fit` call on
the same instance runs its stages on the first call's smoothed output, not
on the original raw input. -/
theorem fit_second_call_uses_smoothed_table (g : Geo) (lat lng : ℝ)
    (oc : Option (List String)) (predCols : List String) (preds : List (ℤ × ℝ)) :
    (fit g lat lng "prophet" none none oc predCols preds).1.data =
      stagesTable g.data g.kernel lat lng ∧
    (fit (fit g lat lng "prophet" none none oc predCols preds).1 lat lng "prophet"
        none none oc predCols preds).1.data =
      stagesTable (stagesTable g.data g.kernel lat lng) g.kernel lat lng := by
  have e1 := fitStages_default_eq g lat lng "prophet" (by decide)
  have e2 := fitStages_default_eq { g with data := stagesTable g.data g.kernel lat lng }
    lat lng "prophet" (by decide)
  constructor
  · simp [fit, e1]
  · simp [fit, e1, e2]

/-- C2 (amended): supplying precomputed `distance`/`weights` arguments only
skips the corresponding stages — the supplied series' values are never read
(any two supplied values give identical results), and when the held table
lacks the `distance` column the skipped stage leaves nothing for the weight
stage to read, so the call fails with a column-not-found error. -/
theorem fit_supplied_columns_only_skip (g : Geo) (lat lng : ℝ) (model : String)
    (d1 d2 w1 w2 : List ℝ) (oc : Option (List String)) (predCols : List String)
    (preds : List (ℤ × ℝ)) :
    fit g lat lng model (some d1) (some w1) oc predCols preds =
      fit g lat lng model (some d2) (some w2) oc predCols preds ∧
    (model ∈ activeModels → g.data.distance = none →
      fit g lat lng model (some d1) none oc predCols preds =
        (g, Except.error (FitError.columnNotFound "distance"))) := by
  constructor
  · by_cases hm : model ∈ activeModels
    · simp [fit, fitStages, hm]
    · simp [fit, fitStages, hm]
  · intro hm hd
    simp [fit, fitStages, hm, get_weights, hd]

/-- Witness for C2's amended statement on a concrete instance. -/
theorem fit_supplied_columns_only_skip_witness :
    (fit sampleGeo 0 0 "prophet" (some [2]) (some [3]) none ["ds"] [] =
      fit sampleGeo 0 0 "prophet" (some [9]) (some [7]) none ["ds"] []) ∧
    fit sampleGeo 0 0 "prophet" (some [2]) none none ["ds"] [] =
      (sampleGeo, Except.error (FitError.columnNotFound "distance")) := by
  have h := fit_supplied_columns_only_skip sampleGeo 0 0 "prophet" [2] [9] [3] [7]
    none ["ds"] []
  exact ⟨h.1, h.2 (by decide) rfl⟩

/-- C2 (counterexample): on a table without a distance column, a `fit` call
supplying a precomputed distance series fails with a column-not-found
error, while the same call on a table that already holds that column
succeeds — so the supplied series is not used and the result is not the
as-if-present result. -/
theorem fit_supplied_distance_counterexample :
    fit sampleGeo 0 0 "prophet" (some [2]) none none ["ds"] [] =
      (sampleGeo, Except.error (FitError.columnNotFound "distance")) ∧
    exceptIsOk
      (fit sampleGeoWithDistance 0 0 "prophet" (some [2]) none none ["ds"] []).2 =
      true := by
  constructor
  · simp [fit, fitStages, activeModels, get_weights, sampleGeo, sampleTable]
  · rfl

/-- C10: when the weights column sums to a nonzero value, the smoothing
stage broadcasts the single weighted-mean scalar into every row of `y`. -/
theorem smooth_series_broadcasts_weighted_mean (t : Table) (w : List ℝ)
    (hw : t.weights = some w) (hs : w.sum ≠ 0) :
    smooth_series t = Except.ok
      { t with y := List.replicate t.y.length (listDot w t.y / w.sum) } := by
  simp [smooth_series, hw, weighted_mean_smoother, fdiv, hs, FloatResult.toReal]

/-- Witness for C10 on a concrete two-row table. -/
theorem smooth_series_broadcasts_weighted_mean_witness :
    sampleWeightedTable.weights = some [(1 : ℝ), 1] ∧ ([(1 : ℝ), 1].sum ≠ 0) ∧
    smooth_series sampleWeightedTable = Except.ok
      { sampleWeightedTable with
        y := List.replicate sampleWeightedTable.y.length
          (listDot [(1 : ℝ), 1] sampleWeightedTable.y / ([(1 : ℝ), 1]).sum) } :=
  ⟨rfl, by norm_num,
    smooth_series_broadcasts_weighted_mean sampleWeightedTable [1, 1] rfl (by norm_num)⟩

/-- Helper: searching a column list for an entry it does not contain itself
finds nothing. -/
theorem find?_not_contains_self (l : List String) :
    l.find? (fun c => !(decide (c ∈ l))) = none := by
  apply List.find?_eq_none.2
  intro x hx
  simp [hx]

/-- C9: when `other_columns` requests a column absent from the backend's
predictions (the first such being `c`), `fit` returns the missing-column
error naming `c` and no joined result. -/
theorem fit_missing_column_error (g : Geo) (lat lng : ℝ) (oc : List String)
    (c : String) (predCols : List String) (preds : List (ℤ × ℝ))
    (h : oc.find? (fun x => !(decide (x ∈ predCols))) = some c) :
    (fit g lat lng "prophet" none none (some oc) predCols preds).2 =
      Except.error (FitError.missingPredictionColumn c) := by
  have e1 := fitStages_default_eq g lat lng "prophet" (by decide)
  have hoc : oc.isEmpty = false := by
    cases oc
    · simp at h
    · rfl
  simp only [fit, e1]
  simp [run_prophet, hoc, List.find?_append, find?_not_contains_self, h]

/-- Witness for C9 with predictions columns `["ds", "yhat"]` and a request
for the absent column `"foo"`. -/
theorem fit_missing_column_error_witness :
    (["foo"].find? (fun x => !(decide (x ∈ (["ds", "yhat"] : List String)))) =
      some "foo") ∧
    (fit sampleGeo 0 0 "prophet" none none (some ["foo"]) ["ds", "yhat"] []).2 =
      Except.error (FitError.missingPredictionColumn "foo") :=
  ⟨by decide,
    fit_missing_column_error sampleGeo 0 0 ["foo"] "foo" ["ds", "yhat"] [] (by decide)⟩

/-- Helper: each original row contributes at least one joined row. -/
theorem joinRow_length_pos (preds : List (ℤ × ℝ)) (r : ℤ × ℝ) :
    1 ≤ (joinRow preds r).length := by
  unfold joinRow
  cases hf : preds.filter (fun p => p.1 == r.1) with
  | nil => simp
  | cons p ms => simp

/-- Helper: every joined row carries the date of its originating row. -/
theorem joinRow_key (preds : List (ℤ × ℝ)) (r : ℤ × ℝ) (x : JoinedRow)
    (hx : x ∈ joinRow preds r) : x.1 = r.1 := by
  unfold joinRow at hx
  split at hx
  · simp at hx
    rw [hx]
  · rename_i ms hms
    simp at hx
    obtain ⟨a, b, hab, hx⟩ := hx
    rw [← hx]

/-- C4 (amended): the left join keeps every original row — the result is at
least as long as the original table, an original row with no matching
prediction date appears with a null prediction column — and every result
row carries an original date, so the backend's forecast-only future rows
are not retained. -/
theorem left_join_preserves_original_rows (orig preds : List (ℤ × ℝ)) :
    orig.length ≤ (leftJoinDates orig preds).length ∧
    (∀ r ∈ leftJoinDates orig preds, r.1 ∈ orig.map Prod.fst) ∧
    (∀ o ∈ orig, (∀ p ∈ preds, p.1 ≠ o.1) →
      (o.1, o.2, none) ∈ leftJoinDates orig preds) := by
  refine ⟨?_, ?_, ?_⟩
  · unfold leftJoinDates
    induction orig with
    | nil => simp
    | cons a l ih =>
        simp only [List.flatMap_cons, List.length_append, List.length_cons]
        have := joinRow_length_pos preds a
        omega
  · intro r hr
    unfold leftJoinDates at hr
    rw [List.mem_flatMap] at hr
    obtain ⟨a, ha, hra⟩ := hr
    rw [joinRow_key preds a r hra]
    exact List.mem_map.2 ⟨a, ha, rfl⟩
  · intro o ho hnone
    unfold leftJoinDates
    rw [List.mem_flatMap]
    refine ⟨o, ho, ?_⟩
    unfold joinRow
    have hf : preds.filter (fun p => p.1 == o.1) = [] := by
      apply List.filter_eq_nil_iff.2
      intro p hp
      simpa using hnone p hp
    rw [hf]
    simp

/-- Witness for C4's amended statement on a one-row table with an
unmatched prediction row. -/
theorem left_join_preserves_original_rows_witness :
    ([((0 : ℤ), (1 : ℝ))].length ≤
      (leftJoinDates [((0 : ℤ), (1 : ℝ))] [((1 : ℤ), (5 : ℝ))]).length) ∧
    ((0 : ℤ), (1 : ℝ), (none : Option ℝ)) ∈
      leftJoinDates [((0 : ℤ), (1 : ℝ))] [((1 : ℤ), (5 : ℝ))] := by
  have h := left_join_preserves_original_rows [((0 : ℤ), (1 : ℝ))] [((1 : ℤ), (5 : ℝ))]
  refine ⟨h.1, h.2.2 (0, 1) (by simp) ?_⟩
  intro p hp
  simp only [List.mem_singleton] at hp
  subst hp
  norm_num

/-- C4 (counterexample): with one original observation at date 0 and backend
predictions at dates 0 and 1, the joined result holds only the date-0 row —
the forecast-only future row at date 1 is dropped, not retained. -/
theorem left_join_drops_future_rows_counterexample :
    leftJoinDates [((0 : ℤ), (1 : ℝ))] [((0 : ℤ), (5 : ℝ)), ((1 : ℤ), (6 : ℝ))] =
      [((0 : ℤ), (1 : ℝ), some (5 : ℝ))] ∧
    (1 : ℤ) ∉ (leftJoinDates [((0 : ℤ), (1 : ℝ))]
      [((0 : ℤ), (5 : ℝ)), ((1 : ℤ), (6 : ℝ))]).map (fun r => r.1) := by
  constructor
  · rfl
  · simp [leftJoinDates, joinRow]

/-- Witness for C7 at length scale 1 and concrete distances. -/
theorem kernel_weight_properties_witness :
    (0 : ℝ) < 1 ∧ gaussianKernel 1 0 = 1 ∧ exponentialKernel 1 0 = 1 ∧
    gaussianKernel 1 2 ≤ gaussianKernel 1 1 ∧
    exponentialKernel 1 2 ≤ exponentialKernel 1 1 ∧
    (0 < gaussianKernel 1 3 ∧ gaussianKernel 1 3 ≤ 1) ∧
    (0 < exponentialKernel 1 3 ∧ exponentialKernel 1 3 ≤ 1) := by
  have h := kernel_weight_properties 1 one_pos
  have hm := h.2.2.1 1 2 (by norm_num)
  exact ⟨one_pos, h.1, h.2.1, hm.1, hm.2, (h.2.2.2 3).1, (h.2.2.2 3).2⟩
